import Mathlib

/-!
Verification of the lexflation visualization layer (docs/js/visualization.js)
and of the spec-level aggregation pipeline.

The JavaScript source is shallowly embedded: the global mutable variables
`globalData` and `displayMode` become explicit components of an `AppState`
structure (stateful code as explicit state passing), DOM side effects become
record fields describing the resulting UI state, and the d3 scale objects
become plain records holding their domain and range endpoints.  Numbers are
modelled as `Int`/`Nat` (all quantities in the data are integers: epoch
milliseconds, line counts).
-/

namespace Lexflation

/-- The display mode: the JS global `displayMode` ranges over the two strings
`brut` and `net` (visualization.js line 3). -/
inductive Mode
  | brut
  | net
deriving DecidableEq, Repr

/-- The `metadata` object of the dataset JSON document
(spec section 6: generated_at, earliest_commit, latest_commit, total_codes,
total_commits, max_additions, max_deletions).  Timestamps are epoch
milliseconds. -/
structure Metadata where
  generated_at : Int
  earliest_commit : Int
  latest_commit : Int
  total_codes : Nat
  total_commits : Nat
  max_additions : Nat
  max_deletions : Nat
deriving DecidableEq, Repr

/-- One commit record of the dataset JSON document: fields
sha, ts (epoch ms), msg, add, del, url.  JS objects are open maps, so the
`net` field added by `transformCommitData` in net mode is modelled as an
optional field, absent (`none`) on the records loaded from the document. -/
structure Commit where
  sha : String
  ts : Int
  msg : String
  add : Nat
  del : Nat
  url : String
  net : Option Int := none
deriving DecidableEq, Repr

/-- One entry of the `codes` array of the dataset document:
name, slug, repo_url, total_commits, commits. -/
structure Code where
  name : String
  slug : String
  repo_url : String
  total_commits : Nat
  commits : List Commit
deriving DecidableEq, Repr

/-- The whole dataset document: `metadata` plus the `codes` array. -/
structure Dataset where
  metadata : Metadata
  codes : List Code
deriving DecidableEq, Repr

/-- Chart width constant (visualization.js line 6). -/
def CHART_WIDTH : Int := 280

/-- Chart height constant (visualization.js line 7). -/
def CHART_HEIGHT : Int := 180

/-- The margin record (visualization.js line 8). -/
structure MarginT where
  top : Int
  right : Int
  bottom : Int
  left : Int
deriving DecidableEq, Repr

/-- `MARGIN = { top: 10, right: 10, bottom: 30, left: 40 }`. -/
def MARGIN : MarginT := { top := 10, right := 10, bottom := 30, left := 40 }

/-- A d3 time scale, reduced to the data it is built from: its domain
endpoints (epoch ms) and its pixel range endpoints. -/
structure TimeScale where
  domain : Int × Int
  range : Int × Int
deriving DecidableEq, Repr

/-- A d3 linear scale, reduced to its domain and range endpoints. -/
structure LinearScale where
  domain : Int × Int
  range : Int × Int
deriving DecidableEq, Repr

/-- `createScales(metadata)` (visualization.js lines 77-101).  The JS reads
the global `displayMode`; the embedding passes that global as the explicit
first argument.  Both branches of the `if` are kept exactly as written in the
source. -/
def createScales (displayMode : Mode) (metadata : Metadata) :
    TimeScale × LinearScale :=
  let xScale : TimeScale :=
    { domain := (metadata.earliest_commit, metadata.latest_commit)
      range := (MARGIN.left, CHART_WIDTH - MARGIN.right) }
  let yScale : LinearScale :=
    if displayMode = Mode.brut then
      let maxValue : Int := max (metadata.max_additions : Int) (metadata.max_deletions : Int)
      { domain := (-maxValue, maxValue)
        range := (CHART_HEIGHT - MARGIN.bottom, MARGIN.top) }
    else
      let maxNet : Int := max (metadata.max_additions : Int) (metadata.max_deletions : Int)
      { domain := (-maxNet, maxNet)
        range := (CHART_HEIGHT - MARGIN.bottom, MARGIN.top) }
  (xScale, yScale)

/-- `transformCommitData(commits)` (visualization.js lines 106-114): in net
mode, map each commit to a copy with the extra field `net = add - del`
(JS `{...c, net: c.add - c.del}`); otherwise return the input as is.  The
global `displayMode` read is the explicit first argument. -/
def transformCommitData (displayMode : Mode) (commits : List Commit) :
    List Commit :=
  if displayMode = Mode.net then
    commits.map (fun c => { c with net := some ((c.add : Int) - (c.del : Int)) })
  else
    commits

/-- The data content of one chart card built by `createChartCard`
(visualization.js lines 136-156) together with the commits its inner SVG is
built from (`createChart`, lines 161-179, calls
`transformCommitData(code.commits)`). -/
structure ChartCard where
  title : String
  subtitle : String
  code : Code
  transformedCommits : List Commit
  xScale : TimeScale
  yScale : LinearScale
deriving DecidableEq, Repr

/-- `createChartCard(code, xScale, yScale)` (lines 136-156), with the SVG
reduced to the transformed commit list it renders. -/
def createChartCard (displayMode : Mode) (code : Code)
    (xScale : TimeScale) (yScale : LinearScale) : ChartCard :=
  { title := code.name
    subtitle := toString code.total_commits ++ " modification" ++
      (if code.total_commits > 1 then "s" else "")
    code := code
    transformedCommits := transformCommitData displayMode code.commits
    xScale := xScale
    yScale := yScale }

/-- `renderAllCharts(data)` (visualization.js lines 119-131): build the
scales once from `data.metadata`, then for each code append a chart card,
skipping codes whose commit list is empty
(`if (code.commits.length === 0) return;`). -/
def renderAllCharts (displayMode : Mode) (data : Dataset) : List ChartCard :=
  let scales := createScales displayMode data.metadata
  (data.codes.filter (fun code => code.commits.length ≠ 0)).map
    (fun code => createChartCard displayMode code scales.1 scales.2)

/-- Application state: the JS globals `globalData` (line 2) and
`displayMode` (line 3), plus the DOM state mutated by `toggleMode` and
`renderAllCharts` (button text and title, legend labels, chart container
content). -/
structure AppState where
  globalData : Option Dataset
  displayMode : Mode
  buttonText : String
  buttonTitle : String
  legendAddText : String
  legendDelText : String
  renderedCharts : List ChartCard
deriving DecidableEq, Repr

/-- `toggleMode()` (visualization.js lines 411-437): flip the global
`displayMode`, update the toggle button text/title and the legend labels,
then re-render all charts when `globalData` is set. -/
def toggleMode (s : AppState) : AppState :=
  let displayMode := if s.displayMode = Mode.brut then Mode.net else Mode.brut
  let buttonText :=
    if displayMode = Mode.brut then "Mode Net" else "Mode Brut"
  let buttonTitle :=
    if displayMode = Mode.brut then "Afficher le solde (net)"
    else "Afficher les additions et deletions separement"
  let legendAddText :=
    if displayMode = Mode.brut then "Additions" else "Solde positif"
  let legendDelText :=
    if displayMode = Mode.brut then "Deletions" else "Solde negatif"
  let s₁ : AppState :=
    { s with
      displayMode := displayMode
      buttonText := buttonText
      buttonTitle := buttonTitle
      legendAddText := legendAddText
      legendDelText := legendDelText }
  match s₁.globalData with
  | some d => { s₁ with renderedCharts := renderAllCharts s₁.displayMode d }
  | none => s₁

/-- What the rendering observably produces from an application state:
re-running `renderAllCharts` on the stored dataset under the stored mode
(`none` when no dataset is loaded). -/
def renderFromState (s : AppState) : Option (List ChartCard) :=
  s.globalData.map (renderAllCharts s.displayMode)

/-- Outcome of the `fetch` call in `loadData` (visualization.js line 15):
either the promise rejects (network error), or a response arrives with an
`ok` flag, a status code, and a body that parses to a dataset or not
(`response.json()` rejects on a body that is not valid JSON). -/
inductive FetchOutcome
  | networkError
  | httpResponse (ok : Bool) (status : Nat) (body : Option Dataset)
deriving DecidableEq, Repr

/-- The error `loadData` rethrows (visualization.js lines 21-24). -/
inductive LoadError
  | fetchFailed
  | httpError (status : Nat)
  | parseError
deriving DecidableEq, Repr

/-- `loadData()` (visualization.js lines 13-25): throw on a rejected fetch,
throw `HTTP error` when `!response.ok`, throw when the body fails to parse,
otherwise return the parsed data. -/
def loadData : FetchOutcome → Except LoadError Dataset
  | .networkError => .error .fetchFailed
  | .httpResponse ok status body =>
    if ok = false then .error (.httpError status)
    else
      match body with
      | none => .error .parseError
      | some d => .ok d

/-- The UI state `init` leaves behind, with `renderedCharts = none` meaning
`renderAllCharts` was never called in that run. -/
structure InitResult where
  loadingHidden : Bool
  errorShown : Bool
  statsShown : Bool
  controlsShown : Bool
  chartsContainerShown : Bool
  renderedCharts : Option (List ChartCard)
deriving DecidableEq, Repr

/-- `init()` (visualization.js lines 30-53): await `loadData`; on success
hide the loading element, show stats, controls and the chart grid, and call
`renderAllCharts`; any thrown error lands in the catch block, which hides
the loading element and shows the error element without ever reaching
`renderAllCharts`.  The global `displayMode` in force during the run is the
explicit first argument. -/
def init (displayMode : Mode) (fetch : FetchOutcome) : InitResult :=
  match loadData fetch with
  | .error _ =>
    { loadingHidden := true
      errorShown := true
      statsShown := false
      controlsShown := false
      chartsContainerShown := false
      renderedCharts := none }
  | .ok data =>
    { loadingHidden := true
      errorShown := false
      statsShown := true
      controlsShown := true
      chartsContainerShown := true
      renderedCharts := some (renderAllCharts displayMode data) }

/-- Modelled from the spec: the monthly-bucket Aggregator (spec section 4.3)
is not part of the rendering source under src/ (the collection scripts are
absent); this models its input record.  The spec directs the bucket key to be
the (calendar year, calendar month) of the timestamp using "the timestamp's
own date components as-is", so a record carries its date components directly
together with its addition/deletion counts. -/
structure AggRecord where
  year : Nat
  month : Nat
  day : Nat
  additions : Nat
  deletions : Nat
deriving DecidableEq, Repr

/-- A calendar date, used for `bucketStart` (first day of the month). -/
structure DateParts where
  year : Nat
  month : Nat
  day : Nat
deriving DecidableEq, Repr

/-- Modelled from the spec: an AggregatedBucket (spec section 3) —
`bucketStart` is the first day of the bucket month, `additions`/`deletions`
are the sums over every record whose (year, month) falls in the bucket. -/
structure AggregatedBucket where
  bucketStart : DateParts
  additions : Nat
  deletions : Nat
deriving DecidableEq, Repr

/-- The bucket key of a record: (calendar year, calendar month). -/
def bucketKey (r : AggRecord) : Nat × Nat := (r.year, r.month)

/-- Ascending order on bucket keys: by year, then by month.  Buckets with an
earlier key have an earlier `bucketStart`. -/
def keyLE (a b : Nat × Nat) : Prop :=
  a.1 < b.1 ∨ (a.1 = b.1 ∧ a.2 ≤ b.2)

instance : DecidableRel keyLE := fun a b => by
  unfold keyLE; infer_instance

instance : IsTotal (Nat × Nat) keyLE :=
  ⟨fun a b => by unfold keyLE; omega⟩

instance : IsTrans (Nat × Nat) keyLE :=
  ⟨fun a b c hab hbc => by unfold keyLE at *; omega⟩

instance : IsAntisymm (Nat × Nat) keyLE :=
  ⟨fun a b hab hba => by
    unfold keyLE at *
    have h1 : a.1 = b.1 := by omega
    have h2 : a.2 = b.2 := by omega
    exact Prod.ext h1 h2⟩

/-- Sum of `additions` over the records of one bucket. -/
def bucketAdditions (k : Nat × Nat) (rs : List AggRecord) : Nat :=
  ((rs.filter (fun r => bucketKey r = k)).map AggRecord.additions).sum

/-- Sum of `deletions` over the records of one bucket. -/
def bucketDeletions (k : Nat × Nat) (rs : List AggRecord) : Nat :=
  ((rs.filter (fun r => bucketKey r = k)).map AggRecord.deletions).sum

/-- The distinct bucket keys occurring among the records, sorted ascending. -/
def bucketKeys (rs : List AggRecord) : List (Nat × Nat) :=
  List.insertionSort keyLE (rs.map bucketKey).dedup

/-- Modelled from the spec: the Aggregator (spec section 4.3).  For every
record, its bucket key is the (calendar year, calendar month) of its
timestamp; `additions`/`deletions` are accumulated into the bucket keyed by
that pair; `bucketStart` is the first day of that month; buckets are unique
by `bucketStart` and emitted sorted ascending by `bucketStart`. -/
def aggregateMonthly (rs : List AggRecord) : List AggregatedBucket :=
  (bucketKeys rs).map (fun k =>
    { bucketStart := { year := k.1, month := k.2, day := 1 }
      additions := bucketAdditions k rs
      deletions := bucketDeletions k rs })

/-! ### Concrete fixtures used by counterexamples and witnesses -/

/-- A metadata record whose observed maxima are both zero. -/
def mdZero : Metadata :=
  { generated_at := 0, earliest_commit := 0, latest_commit := 0
    total_codes := 0, total_commits := 0
    max_additions := 0, max_deletions := 0 }

/-- A concrete commit record (10 additions, 2 deletions). -/
def commitEx : Commit :=
  { sha := "a1", ts := 1577836800000, msg := "m", add := 10, del := 2, url := "u" }

/-- A concrete metadata record. -/
def mdEx : Metadata :=
  { generated_at := 0
    earliest_commit := 1577836800000, latest_commit := 1622505600000
    total_codes := 1, total_commits := 1
    max_additions := 10, max_deletions := 2 }

/-- A concrete code with one commit. -/
def codeEx : Code :=
  { name := "Code civil", slug := "code_civil", repo_url := "r"
    total_commits := 1, commits := [commitEx] }

/-- A concrete dataset with one non-empty code. -/
def dsEx : Dataset := { metadata := mdEx, codes := [codeEx] }

/-! ### Claim theorems -/

/-- C1 counterexample: on a metadata whose observed maxima are both zero,
the magnitude domain upper bound computed by `createScales` is 0 — not
max(max_additions, max_deletions, 1) = 1 — and the domain is exactly
[0, 0]: the floor at 1 asserted by the claim is absent from the code. -/
theorem createScales_no_floor_counterexample :
    (createScales Mode.brut mdZero).2.domain.2 ≠
      max (max (mdZero.max_additions : Int) (mdZero.max_deletions : Int)) 1 ∧
    (createScales Mode.brut mdZero).2.domain = ((0 : Int), (0 : Int)) := by
  constructor
  · decide
  · decide

/-- C1 (amended): in both display modes the magnitude domain computed by
`createScales` is [-M, +M] with M = max(max_additions, max_deletions), with
no floor at 1: a metadata whose maxima are all zero yields the degenerate
domain [0, 0], not [-1, 1]. -/
theorem createScales_magnitude_domain (mode : Mode) (md : Metadata) :
    (createScales mode md).2.domain =
      (-(max (md.max_additions : Int) (md.max_deletions : Int)),
        max (md.max_additions : Int) (md.max_deletions : Int)) := by
  cases mode <;> rfl

/-- C2: in both display modes the magnitude domain produced by
`createScales` is symmetric about zero: the lower bound is the negation of
the upper bound, and the upper bound is the larger of max_additions and
max_deletions. -/
theorem createScales_symmetric (mode : Mode) (md : Metadata) :
    (createScales mode md).2.domain.1 = -(createScales mode md).2.domain.2 ∧
    (createScales mode md).2.domain.2 =
      max (md.max_additions : Int) (md.max_deletions : Int) := by
  cases mode <;> exact ⟨rfl, rfl⟩

/-- C9: `createScales` returns the same scales whatever the display mode:
the brut and net branches compute the identical bound
max(max_additions, max_deletions), so toggling between the two modes never
changes the magnitude axis scaling. -/
theorem createScales_mode_independent (m₁ m₂ : Mode) (md : Metadata) :
    createScales m₁ md = createScales m₂ md := by
  cases m₁ <;> cases m₂ <;> rfl

/-- C10: `transformCommitData` is the identity in brut mode; in net mode it
returns one record per input record, equal to the input record with the
single extra field net = add - del, and with sha, ts, msg, add, del and url
unchanged. -/
theorem transformCommitData_modes :
    (∀ cs : List Commit, transformCommitData Mode.brut cs = cs) ∧
    (∀ cs : List Commit, transformCommitData Mode.net cs =
      cs.map (fun c => { c with net := some ((c.add : Int) - (c.del : Int)) })) ∧
    (∀ c : Commit,
      ({ c with net := some ((c.add : Int) - (c.del : Int)) } : Commit).sha = c.sha ∧
      ({ c with net := some ((c.add : Int) - (c.del : Int)) } : Commit).ts = c.ts ∧
      ({ c with net := some ((c.add : Int) - (c.del : Int)) } : Commit).msg = c.msg ∧
      ({ c with net := some ((c.add : Int) - (c.del : Int)) } : Commit).add = c.add ∧
      ({ c with net := some ((c.add : Int) - (c.del : Int)) } : Commit).del = c.del ∧
      ({ c with net := some ((c.add : Int) - (c.del : Int)) } : Commit).url = c.url ∧
      ({ c with net := some ((c.add : Int) - (c.del : Int)) } : Commit).net =
        some ((c.add : Int) - (c.del : Int))) :=
  ⟨fun _ => rfl, fun _ => rfl,
    fun _ => ⟨rfl, rfl, rfl, rfl, rfl, rfl, rfl⟩⟩

/-- C5: toggling the display mode and re-rendering leaves the stored dataset
untouched: the `globalData` component of the application state — the codes
list, every commit array and every commit record inside it — is unchanged by
`toggleMode` (which re-runs `renderAllCharts` and therefore
`transformCommitData`). -/
theorem toggleMode_preserves_dataset (s : AppState) :
    (toggleMode s).globalData = s.globalData := by
  unfold toggleMode
  cases h : s.globalData <;> simp [h]

/-- C7: when the dataset document is missing or corrupt — the fetch
rejects, the response status is not ok, or the body fails to parse — `init`
shows the error element and never calls `renderAllCharts` in that run. -/
theorem init_load_error (mode : Mode) (f : FetchOutcome) (e : LoadError)
    (h : loadData f = Except.error e) :
    (init mode f).errorShown = true ∧ (init mode f).renderedCharts = none := by
  unfold init
  rw [h]
  exact ⟨rfl, rfl⟩

/-- C7 witness: the concrete run whose fetch rejects shows the error element
and renders nothing. -/
theorem init_load_error_witness :
    loadData FetchOutcome.networkError = Except.error LoadError.fetchFailed ∧
    (init Mode.brut FetchOutcome.networkError).errorShown = true ∧
    (init Mode.brut FetchOutcome.networkError).renderedCharts = none :=
  ⟨rfl, init_load_error Mode.brut FetchOutcome.networkError LoadError.fetchFailed rfl⟩

/-- C6 counterexample: `transformCommitData` applied to the same explicit
commit-list argument yields different results under the two values of the
shared `displayMode` global, so the chart functions do consult that shared
mutable state rather than depending on their explicit arguments alone: two
runs with the same explicit arguments do not always produce the same
result. -/
theorem transformCommitData_reads_global_mode :
    transformCommitData Mode.brut [commitEx] ≠
      transformCommitData Mode.net [commitEx] := by
  decide

/-- C6 (amended): the display mode is held in the shared mutable global
`displayMode`, consulted implicitly by `createScales` and
`transformCommitData` rather than passed by their callers as an explicit
parameter; the rendering is nonetheless deterministic in the pair
(mode state, dataset): two application states that agree on `displayMode`
and `globalData` render identical charts, whatever their other UI state
fields. -/
theorem render_determined_by_mode_and_data (s₁ s₂ : AppState)
    (hm : s₁.displayMode = s₂.displayMode)
    (hd : s₁.globalData = s₂.globalData) :
    renderFromState s₁ = renderFromState s₂ := by
  unfold renderFromState
  rw [hm, hd]

/-- A concrete application state holding the example dataset. -/
def stA : AppState :=
  { globalData := some dsEx, displayMode := Mode.brut
    buttonText := "Mode Net", buttonTitle := "Afficher le solde (net)"
    legendAddText := "Additions", legendDelText := "Deletions"
    renderedCharts := [] }

/-- The same state with a different button label (a UI field the charts do
not depend on). -/
def stB : AppState := { stA with buttonText := "autre" }

/-- C6 amended witness: two concrete states differing only in a UI field
render identically. -/
theorem render_determined_witness :
    stA.displayMode = stB.displayMode ∧ stA.globalData = stB.globalData ∧
    renderFromState stA = renderFromState stB :=
  ⟨rfl, rfl, render_determined_by_mode_and_data stA stB rfl rfl⟩

/-- C3: every chart card is built with the one shared x scale computed from
the global metadata, whose domain is [earliest_commit, latest_commit] — the
time axis of a series chart never uses the series own min/max
timestamps. -/
theorem renderAllCharts_shared_xscale (mode : Mode) (data : Dataset)
    (card : ChartCard) (h : card ∈ renderAllCharts mode data) :
    card.xScale = (createScales mode data.metadata).1 ∧
    card.xScale.domain =
      (data.metadata.earliest_commit, data.metadata.latest_commit) := by
  simp only [renderAllCharts, List.mem_map] at h
  obtain ⟨code, hmem, hc⟩ := h
  subst hc
  exact ⟨rfl, rfl⟩

/-- The chart card `renderAllCharts` produces for the example dataset. -/
def cardEx : ChartCard :=
  createChartCard Mode.brut codeEx
    (createScales Mode.brut dsEx.metadata).1
    (createScales Mode.brut dsEx.metadata).2

/-- C3 witness: on the concrete one-code dataset, the produced card carries
the shared global x scale with the global time domain. -/
theorem renderAllCharts_shared_xscale_witness :
    cardEx ∈ renderAllCharts Mode.brut dsEx ∧
    cardEx.xScale = (createScales Mode.brut dsEx.metadata).1 ∧
    cardEx.xScale.domain =
      (dsEx.metadata.earliest_commit, dsEx.metadata.latest_commit) :=
  have h : cardEx ∈ renderAllCharts Mode.brut dsEx := by decide
  ⟨h, renderAllCharts_shared_xscale Mode.brut dsEx cardEx h⟩

/-- C4: `renderAllCharts` enumerates exactly the codes whose commit list is
non-empty, in dataset order — a code with zero commits gets no chart card,
while the dataset's codes list itself is the untouched source of the
enumeration — and every emitted card carries a code with at least one
commit. -/
theorem renderAllCharts_skips_empty (mode : Mode) (data : Dataset) :
    (renderAllCharts mode data).map ChartCard.code =
      data.codes.filter (fun code => code.commits.length ≠ 0) ∧
    ((renderAllCharts mode data).all
      (fun card => card.code.commits.length ≠ 0)) = true := by
  constructor
  · simp [renderAllCharts, createChartCard, List.map_map, Function.comp_def]
  · rw [List.all_eq_true]
    intro card hcard
    simp only [renderAllCharts, List.mem_map, List.mem_filter] at hcard
    obtain ⟨code, ⟨_, hne⟩, hc⟩ := hcard
    subst hc
    simpa using hne

/-- Bucket addition sums are invariant under permutation of the records. -/
theorem bucketAdditions_perm {rs₁ rs₂ : List AggRecord} (h : rs₁.Perm rs₂)
    (k : Nat × Nat) : bucketAdditions k rs₁ = bucketAdditions k rs₂ :=
  ((h.filter _).map _).sum_eq

/-- Bucket deletion sums are invariant under permutation of the records. -/
theorem bucketDeletions_perm {rs₁ rs₂ : List AggRecord} (h : rs₁.Perm rs₂)
    (k : Nat × Nat) : bucketDeletions k rs₁ = bucketDeletions k rs₂ :=
  ((h.filter _).map _).sum_eq

/-- The sorted distinct key list is invariant under permutation of the
records: permuted inputs have permuted key multisets, hence dedup lists that
are permutations of each other, and two sorted permutations of each other
are equal. -/
theorem bucketKeys_perm {rs₁ rs₂ : List AggRecord} (h : rs₁.Perm rs₂) :
    bucketKeys rs₁ = bucketKeys rs₂ := by
  have hperm : ((rs₁.map bucketKey).dedup).Perm ((rs₂.map bucketKey).dedup) :=
    (h.map bucketKey).dedup
  exact List.eq_of_perm_of_sorted
    ((List.perm_insertionSort keyLE _).trans
      (hperm.trans (List.perm_insertionSort keyLE _).symm))
    (List.sorted_insertionSort keyLE _)
    (List.sorted_insertionSort keyLE _)

/-- Full permutation invariance of the monthly aggregation. -/
theorem aggregateMonthly_perm {rs₁ rs₂ : List AggRecord} (h : rs₁.Perm rs₂) :
    aggregateMonthly rs₁ = aggregateMonthly rs₂ := by
  unfold aggregateMonthly
  rw [bucketKeys_perm h]
  simp only [bucketAdditions_perm h, bucketDeletions_perm h]

/-- The emitted buckets are sorted ascending by bucket key. -/
theorem aggregateMonthly_sorted (rs : List AggRecord) :
    (aggregateMonthly rs).Pairwise
      (fun b₁ b₂ => keyLE (b₁.bucketStart.year, b₁.bucketStart.month)
        (b₂.bucketStart.year, b₂.bucketStart.month)) := by
  unfold aggregateMonthly bucketKeys
  exact List.Pairwise.map _ (fun a b hab => hab)
    (List.sorted_insertionSort keyLE _)

/-- C8: monthly aggregation is an order-independent, idempotent reduction:
running it on any permutation of the same record multiset yields the
identical bucket list (identical per-bucket addition/deletion sums), with
buckets keyed by (calendar year, month) and emitted sorted ascending by
`bucketStart` (first day of the bucket month, ordered by year then
month). -/
theorem aggregateMonthly_order_independent :
    (∀ rs₁ rs₂ : List AggRecord, rs₁.Perm rs₂ →
      aggregateMonthly rs₁ = aggregateMonthly rs₂) ∧
    (∀ rs : List AggRecord, (aggregateMonthly rs).Pairwise
      (fun b₁ b₂ => keyLE (b₁.bucketStart.year, b₁.bucketStart.month)
        (b₂.bucketStart.year, b₂.bucketStart.month))) :=
  ⟨fun _ _ h => aggregateMonthly_perm h, aggregateMonthly_sorted⟩

/-- A concrete record: January 2020, 5 additions, 1 deletion. -/
def recA : AggRecord :=
  { year := 2020, month := 1, day := 15, additions := 5, deletions := 1 }

/-- A concrete record: February 2020, 0 additions, 4 deletions. -/
def recB : AggRecord :=
  { year := 2020, month := 2, day := 1, additions := 0, deletions := 4 }

/-- C8 witness: the two traversal orders of a concrete two-record multiset
aggregate to the identical bucket list. -/
theorem aggregateMonthly_order_independent_witness :
    ([recA, recB]).Perm [recB, recA] ∧
    aggregateMonthly [recA, recB] = aggregateMonthly [recB, recA] :=
  ⟨List.Perm.swap recB recA [],
    aggregateMonthly_order_independent.1 _ _ (List.Perm.swap recB recA [])⟩

/-- Sanity check of the aggregation on the spec's scenario B: three records
in January and February 2020 produce the two expected buckets. -/
theorem aggregateMonthly_scenario_b :
    aggregateMonthly
      [{ year := 2020, month := 1, day := 15, additions := 5, deletions := 1 },
       { year := 2020, month := 1, day := 20, additions := 2, deletions := 0 },
       { year := 2020, month := 2, day := 1, additions := 0, deletions := 4 }] =
      [{ bucketStart := { year := 2020, month := 1, day := 1 }, additions := 7, deletions := 1 },
       { bucketStart := { year := 2020, month := 2, day := 1 }, additions := 0, deletions := 4 }] := by
  decide

end Lexflation
